import Mathlib

/-!
Verification of the probability/adjustment engine of the nba-parlay-analyzer
repository against its natural-language specification.

The Python sources are shallowly embedded over the rationals.  The real-valued
library functions that the engine merely calls through (scipy's standard-normal
CDF `stats.norm.cdf`, its inverse `stats.norm.ppf`, and the square root inside
pandas' sample standard deviation) are passed in as explicit function
parameters `cdf`, `ppf` and `sqrtFn`; everything the repository itself computes
is translated literally.  Python dictionaries produced by the stats calculator
are modelled as association lists of string keys; a pandas `NaN` (which occurs
as the sample standard deviation of a single observation) is modelled by the
dedicated constructor `StatVal.nan`, whose comparison behaviour (`nan > 0` is
false, `nan` is truthy) mirrors IEEE semantics at the two places the code
inspects such a value.  Purely cosmetic string formatting (percent signs,
emoji, f-string number formatting) is abstracted to the branch tags that the
code selects between.
-/

set_option maxHeartbeats 1000000
set_option maxRecDepth 1000000

namespace NBA

/-- Python's two-argument `max(a, b)`: `a` if `a >= b` else `b`.  Used instead
of Mathlib's lattice `max` so that closed instances reduce inside `decide`. -/
def pymax (a b : ℚ) : ℚ :=
  if b ≤ a then a else b

/-- Python's two-argument `min(a, b)`: `a` if `a <= b` else `b`. -/
def pymin (a b : ℚ) : ℚ :=
  if a ≤ b then a else b

/-- `pymax` agrees with the lattice `max`. -/
theorem pymax_eq (a b : ℚ) : pymax a b = max a b := by
  unfold pymax
  split_ifs with h
  · exact (max_eq_left h).symm
  · exact (max_eq_right (le_of_not_le h)).symm

/-- `pymin` agrees with the lattice `min`. -/
theorem pymin_eq (a b : ℚ) : pymin a b = min a b := by
  unfold pymin
  split_ifs with h
  · exact (min_eq_left h).symm
  · exact (min_eq_right (le_of_not_le h)).symm

/-! ### src/team_stats.py -/

/-- League average defensive rating constant (`LEAGUE_AVERAGE_DEF_RATING`). -/
def LEAGUE_AVERAGE_DEF_RATING : ℚ := 115.0

/-- League average pace constant (`LEAGUE_AVERAGE_PACE`). -/
def LEAGUE_AVERAGE_PACE : ℚ := 98.9

/-- Home court multiplier (`HOME_COURT_FACTOR`). -/
def HOME_COURT_FACTOR : ℚ := 1.10

/-- Away court multiplier (`AWAY_COURT_FACTOR`). -/
def AWAY_COURT_FACTOR : ℚ := 0.95

/-- Neutral court multiplier (`NEUTRAL_COURT_FACTOR`). -/
def NEUTRAL_COURT_FACTOR : ℚ := 1.00

/-- The `TEAM_DEFENSIVE_RATINGS` table of src/team_stats.py. -/
def TEAM_DEFENSIVE_RATINGS : List (String × ℚ) :=
  [("BOS", 110.6), ("ORL", 110.8), ("CLE", 111.4), ("MIL", 112.7),
   ("NYK", 112.8), ("PHI", 112.5), ("HOU", 112.9), ("MIA", 113.4),
   ("BKN", 114.9), ("CHI", 115.7), ("ATL", 116.4), ("MEM", 116.8),
   ("TOR", 117.1), ("IND", 117.7), ("CHA", 118.2), ("SAS", 118.6),
   ("DET", 119.2), ("WAS", 119.5), ("POR", 119.3), ("UTA", 118.4),
   ("MIN", 110.9), ("OKC", 111.0), ("LAC", 113.2), ("NOP", 113.8),
   ("GSW", 114.5), ("DEN", 114.9), ("DAL", 115.2), ("LAL", 115.6),
   ("PHX", 116.4), ("SAC", 117.8)]

/-- The `TEAM_PACE` table of src/team_stats.py. -/
def TEAM_PACE : List (String × ℚ) :=
  [("BOS", 99.8), ("ORL", 98.4), ("MIL", 98.9), ("CLE", 96.5),
   ("NYK", 96.3), ("PHI", 98.1), ("MIA", 98.7), ("IND", 101.5),
   ("CHI", 99.1), ("ATL", 99.2), ("BKN", 99.6), ("TOR", 97.8),
   ("CHA", 99.7), ("WAS", 98.5), ("DET", 98.6), ("HOU", 99.4),
   ("MEM", 100.8), ("SAS", 99.6), ("MIN", 99.0), ("OKC", 99.5),
   ("LAC", 98.2), ("NOP", 99.3), ("DEN", 98.9), ("GSW", 99.6),
   ("DAL", 97.8), ("LAL", 99.2), ("PHX", 99.8), ("SAC", 100.2),
   ("UTA", 99.1), ("POR", 97.2)]

/-- `get_team_defense`: defensive rating of a team, league average fallback. -/
def get_team_defense (team_abbr : String) : ℚ :=
  (TEAM_DEFENSIVE_RATINGS.lookup team_abbr.toUpper).getD LEAGUE_AVERAGE_DEF_RATING

/-- `get_team_pace`: pace of a team, league average fallback. -/
def get_team_pace (team_abbr : String) : ℚ :=
  (TEAM_PACE.lookup team_abbr.toUpper).getD LEAGUE_AVERAGE_PACE

/-- `get_location_factor`: location multiplier, neutral fallback. -/
def get_location_factor (location : String) : ℚ :=
  if location.toLower = "home" then HOME_COURT_FACTOR
  else if location.toLower = "away" then AWAY_COURT_FACTOR
  else if location.toLower = "neutral" then NEUTRAL_COURT_FACTOR
  else NEUTRAL_COURT_FACTOR

/-- The unclamped defense factor `1 - ((LEAGUE_AVERAGE_DEF_RATING - opponent_def_rating) / 200)`
of `calculate_defense_factor`. -/
def defense_factor_raw (opponent_def_rating : ℚ) : ℚ :=
  1 - ((LEAGUE_AVERAGE_DEF_RATING - opponent_def_rating) / 200)

/-- `calculate_defense_factor`: the raw factor clamped to `[0.85, 1.15]`
(`max(0.85, min(1.15, factor))`). -/
def calculate_defense_factor (opponent_def_rating : ℚ) : ℚ :=
  pymax 0.85 (pymin 1.15 (defense_factor_raw opponent_def_rating))

/-! ### src/probability_model.py -/

/-- Rounding of a rational to `d` decimal places, modelling Python's
`round(x, d)` (which on CPython floats rounds the binary value half-to-even;
ties differ from this half-up model only on exact midpoints). -/
def roundTo (d : ℕ) (q : ℚ) : ℚ :=
  ((⌊q * 10 ^ d + 1 / 2⌋ : ℤ) : ℚ) / 10 ^ d

/-- One value of a Python stats dictionary: a float, a string, or `NaN`
(pandas emits `NaN` as the ddof-1 standard deviation of a single value). -/
inductive StatVal where
  | num (q : ℚ)
  | str (s : String)
  | nan
deriving DecidableEq, Repr

/-- Numeric payload of a `StatVal`, for positions where the Python code reads a
value it knows to be a float. -/
def StatVal.toQ : StatVal → ℚ
  | .num q => q
  | _ => 0

/-- Python truthiness-and-positivity test `variance and variance > 0` on an
optional float: a `NaN` is truthy but not `> 0`, `None` and `0` are falsy. -/
def statvalPos : Option StatVal → Option ℚ
  | some (.num q) => if 0 < q then some q else none
  | _ => none

/-- The clamp `max(0.01, min(0.99, prob))` at the end of
`calculate_probability_normal`. -/
def clamp_prob (p : ℚ) : ℚ :=
  pymax 0.01 (pymin 0.99 p)

/-- `ProbabilityModel.calculate_probability_normal`.  `cdf` stands for scipy's
`stats.norm.cdf`.  `std = none` models `std is None`; the code substitutes
`mean * 0.3` for a zero or `None` std, floors any std below `0.1` at `0.1`,
computes `z = (line - mean) / std`, takes `1 - cdf z` for over or `cdf z` for
under, and clamps to `[0.01, 0.99]`. -/
def calculate_probability_normal (cdf : ℚ → ℚ) (mean : ℚ) (std : Option ℚ)
    (line : ℚ) (over : Bool) : ℚ :=
  let std1 : ℚ :=
    match std with
    | none => mean * 0.3
    | some s => if s = 0 then mean * 0.3 else s
  let std2 : ℚ := if std1 < 0.1 then 0.1 else std1
  let z : ℚ := (line - mean) / std2
  let prob : ℚ := if over then 1 - cdf z else cdf z
  clamp_prob prob

/-- `ProbabilityModel.calculate_confidence_interval`.  `ppf` stands for scipy's
`stats.norm.ppf`; the lower bound is floored at `0`. -/
def calculate_confidence_interval (ppf : ℚ → ℚ) (mean std confidence : ℚ) :
    ℚ × ℚ :=
  let z_score := ppf ((1 + confidence) / 2)
  let margin := z_score * std
  (pymax 0 (mean - margin), mean + margin)

/-- The `adjustments['defense']` sub-dictionary built by
`ParlayAnalyzer.analyze_leg` (the display-only `description` entry is
omitted).  `factor` is optional because `apply_matchup_adjustments` tests
membership of the key. -/
structure DefenseAdj where
  opponent : String
  rating : ℚ
  factor : Option ℚ
deriving DecidableEq, Repr

/-- The adjustments dictionary handed to the probability model: optional
`location`, `defense` and `pace` entries.  The pace entry is itself a
dictionary whose `factor` key may be absent
(`adjustments['pace'].get('factor', 1.0)`). -/
structure Adjustments where
  location : Option ℚ
  defense : Option DefenseAdj
  pace : Option (Option ℚ)
deriving DecidableEq, Repr

/-- Python truthiness of the adjustments dictionary: nonempty. -/
def Adjustments.truthy (a : Adjustments) : Bool :=
  a.location.isSome || a.defense.isSome || a.pace.isSome

/-- `ProbabilityModel.apply_matchup_adjustments`: multiplies the base mean by
the location factor, then the defense factor, then the pace factor, each only
when present; an absent or empty dictionary returns the base mean. -/
def apply_matchup_adjustments (base_mean : ℚ) (adjustments : Option Adjustments) : ℚ :=
  match adjustments with
  | none => base_mean
  | some a =>
    if !a.truthy then base_mean
    else
      let m1 := match a.location with
        | some f => base_mean * f
        | none => base_mean
      let m2 := match a.defense with
        | some d => match d.factor with
          | some f => m1 * f
          | none => m1
        | none => m1
      match a.pace with
      | some pf => m2 * pf.getD 1.0
      | none => m2

/-- Result dictionary of `ProbabilityModel.predict_with_confidence` (the
display-only `adjustments_summary` entry is omitted; `recommendation` keeps
only the OVER/UNDER/PASS tag of the formatted string). -/
structure Prediction where
  line : ℚ
  season_avg : ℚ
  adjusted_mean : ℚ
  standard_deviation : ℚ
  prob_over : ℚ
  prob_under : ℚ
  fair_line : ℚ
  edge_over : ℚ
  edge_under : ℚ
  confidence_80 : ℚ × ℚ
  confidence_95 : ℚ × ℚ
  recommendation : String
deriving DecidableEq, Repr

/-- `ProbabilityModel._make_recommendation`: a 5% edge is required to
recommend a side (formatted suffix abstracted). -/
def make_model_recommendation (edge_over edge_under : ℚ) : String :=
  if edge_over ≥ 0.05 then "OVER"
  else if edge_under ≥ 0.05 then "UNDER"
  else "PASS"

/-- `ProbabilityModel.predict_with_confidence`: applies the matchup
adjustments, falls back to a 30% coefficient of variation when the supplied
variance is absent, `NaN` or not positive, rescales the std proportionally
when the mean changed, computes the clamped over probability, sets the under
probability to its exact complement, builds both confidence intervals, and
rounds the reported fields. -/
def predict_with_confidence (cdf ppf : ℚ → ℚ) (player_avg line : ℚ)
    (variance : Option StatVal) (adjustments : Option Adjustments) : Prediction :=
  let adjusted_mean := apply_matchup_adjustments player_avg adjustments
  let std0 : ℚ := (statvalPos variance).getD (player_avg * 0.3)
  let adjTruthy : Bool := match adjustments with
    | none => false
    | some a => a.truthy
  let std1 : ℚ :=
    if adjTruthy ∧ adjusted_mean ≠ player_avg then
      if 0 < player_avg then adjusted_mean * (std0 / player_avg) else std0
    else std0
  let prob_over := calculate_probability_normal cdf adjusted_mean (some std1) line true
  let prob_under := 1 - prob_over
  let ci_80 := calculate_confidence_interval ppf adjusted_mean std1 0.80
  let ci_95 := calculate_confidence_interval ppf adjusted_mean std1 0.95
  let fair_line := adjusted_mean
  let edge_over := prob_over - 0.5
  let edge_under := prob_under - 0.5
  { line := line
    season_avg := player_avg
    adjusted_mean := roundTo 2 adjusted_mean
    standard_deviation := roundTo 2 std1
    prob_over := roundTo 4 prob_over
    prob_under := roundTo 4 prob_under
    fair_line := roundTo 1 fair_line
    edge_over := roundTo 4 edge_over
    edge_under := roundTo 4 edge_under
    confidence_80 := (roundTo 1 ci_80.1, roundTo 1 ci_80.2)
    confidence_95 := (roundTo 1 ci_95.1, roundTo 1 ci_95.2)
    recommendation := make_model_recommendation edge_over edge_under }

/-! ### src/enhanced_stats_calculator.py -/

/-- One row of the `game_logs` cache: player identity, date, opponent and the
per-game stat columns (nullable floats after `pd.to_numeric(errors=coerce)`).
The loader orders rows most-recent-first per player; the list is taken in that
order. -/
structure GameRecord where
  player_name : String
  date : String
  opponent : String
  pts : Option ℚ
  ast : Option ℚ
  trb : Option ℚ
  three_p : Option ℚ
  stl : Option ℚ
  blk : Option ℚ
  tov : Option ℚ
  mp : Option ℚ
deriving DecidableEq, Repr

/-- A Python dictionary of stats, as an association list. -/
abbrev StatsDict : Type := List (String × StatVal)

/-- Key membership / value access on a stats dictionary. -/
def dictGet (d : StatsDict) (key : String) : Option StatVal :=
  List.lookup key d

/-- Sum of a list of rationals. -/
def qsum : List ℚ → ℚ
  | [] => 0
  | x :: xs => x + qsum xs

/-- Mean of a list of rationals (`values.mean()`). -/
def qmean (l : List ℚ) : ℚ :=
  qsum l / (l.length : ℚ)

/-- Insertion into a sorted list, for the median computation. -/
def insertSorted (x : ℚ) : List ℚ → List ℚ
  | [] => [x]
  | y :: ys => if x ≤ y then x :: y :: ys else y :: insertSorted x ys

/-- Ascending insertion sort. -/
def sortQ (l : List ℚ) : List ℚ :=
  l.foldr insertSorted []

/-- Median of a list of rationals (`values.median()`): middle element of the
sorted list, or the average of the two middle elements. -/
def qmedian (l : List ℚ) : ℚ :=
  let s := sortQ l
  let n := s.length
  if n % 2 = 1 then s.getD (n / 2) 0
  else (s.getD (n / 2 - 1) 0 + s.getD (n / 2) 0) / 2

/-- Minimum of a list of rationals (`values.min()`). -/
def qminList : List ℚ → ℚ
  | [] => 0
  | x :: xs => xs.foldl pymin x

/-- Maximum of a list of rationals (`values.max()`). -/
def qmaxList : List ℚ → ℚ
  | [] => 0
  | x :: xs => xs.foldl pymax x

/-- Bessel-corrected sample variance `sum((x - mean)^2) / (n - 1)`. -/
def sampleVar (l : List ℚ) : ℚ :=
  qsum (l.map fun x => (x - qmean l) ^ 2) / ((l.length : ℚ) - 1)

/-- `values.std()` in pandas: ddof-1 sample standard deviation, which is `NaN`
for a single observation.  `sqrtFn` stands for the square root. -/
def sampleStd (sqrtFn : ℚ → ℚ) (l : List ℚ) : StatVal :=
  if 2 ≤ l.length then .num (sqrtFn (sampleVar l)) else .nan

/-- The `stat_columns` map of `get_player_stats`: output key stem paired with
the game-log column it reads. -/
def statCols : List (String × (GameRecord → Option ℚ)) :=
  [("points", GameRecord.pts), ("assists", GameRecord.ast),
   ("rebounds", GameRecord.trb), ("threes", GameRecord.three_p),
   ("steals", GameRecord.stl), ("blocks", GameRecord.blk),
   ("turnovers", GameRecord.tov)]

/-- The per-stat summary loop of `get_player_stats`: for each stat column,
drop the nulls and, when any values remain, emit the mean, std, median, min
and max entries under `<stat>_mean`, `<stat>_std`, ... keys. -/
def statSummaryEntries (sqrtFn : ℚ → ℚ) (games : List GameRecord) : StatsDict :=
  (statCols.map fun nc =>
    let values := games.filterMap nc.2
    if values.isEmpty then []
    else
      [(nc.1 ++ "_mean", StatVal.num (qmean values)),
       (nc.1 ++ "_std", sampleStd sqrtFn values),
       (nc.1 ++ "_median", StatVal.num (qmedian values)),
       (nc.1 ++ "_min", StatVal.num (qminList values)),
       (nc.1 ++ "_max", StatVal.num (qmaxList values))]).flatten

/-- The case-insensitive record filter of `get_player_stats`. -/
def matchingGames (records : List GameRecord) (player_name : String) : List GameRecord :=
  records.filter fun r => r.player_name.toLower == player_name.toLower

/-- `EnhancedStatsCalculator.get_player_stats`: empty dictionary when the
cache is empty or no record matches the player case-insensitively; otherwise
truncates to the last N games when `last_n_games` is truthy (Python
`if last_n_games:`, so `0` and `None` both mean no truncation) and assembles
the summary dictionary. -/
def get_player_stats (sqrtFn : ℚ → ℚ) (records : List GameRecord)
    (player_name : String) (last_n_games : Option ℕ) : StatsDict :=
  if records.isEmpty then []
  else
    let player_games := matchingGames records player_name
    if player_games.isEmpty then []
    else
      let limited := match last_n_games with
        | some n => if n ≠ 0 then player_games.take n else player_games
        | none => player_games
      let games_analyzed := limited.length
      [("player_name", StatVal.str player_name),
       ("games_analyzed", StatVal.num (games_analyzed : ℚ))]
        ++ statSummaryEntries sqrtFn limited

/-! ### src/parlay_analyzer.py -/

/-- The `stat_map` of `ParlayAnalyzer.analyze_leg`, mapping request stat types
to data-key stems. -/
def stat_map : List (String × String) :=
  [("points", "pts"), ("assists", "ast"), ("rebounds", "trb"),
   ("three_p", "three_p"), ("steals", "stl"), ("blocks", "blk"),
   ("points_assists", "pa"), ("points_rebounds_assists", "pra")]

/-- The two-band leg recommendation of `analyze_leg`:
`HIT if p > 0.55 else MISS if p < 0.45 else TOSS-UP`. -/
def leg_recommendation (hit_probability : ℚ) : String :=
  if hit_probability > 0.55 then "HIT"
  else if hit_probability < 0.45 then "MISS"
  else "TOSS-UP"

/-- The success dictionary built by `ParlayAnalyzer.analyze_leg` (the
display-only `adjustment_summary` entry is omitted). -/
structure LegResult where
  player : String
  stat_type : String
  line : ℚ
  bet_type : String
  season_avg : ℚ
  season_std : StatVal
  recent_avg : ℚ
  predicted_value : ℚ
  probability : ℚ
  edge : ℚ
  confidence_80 : ℚ × ℚ
  recommendation : String
  games_analyzed : ℚ
  adjustments_applied : Option Adjustments
deriving DecidableEq, Repr

/-- Outcome of `analyze_leg`: either an error dictionary (just its message)
or the analysis dictionary. -/
inductive LegOutcome where
  | err (msg : String)
  | ok (r : LegResult)
deriving DecidableEq, Repr

/-- Round the numeric payload of a stat value to two decimals, as
`round(player_stat_std, 2)` does (a `NaN` std stays `NaN`). -/
def statvalRound2 : StatVal → StatVal
  | .num q => .num (roundTo 2 q)
  | v => v

/-- `ParlayAnalyzer.analyze_leg`.  Fetches the season summary (empty means
player not found), resolves the stat type through `stat_map` with the raw name
as fallback, errors when the `<stat_key>_mean` key is absent, builds the
location/defense adjustments, runs `predict_with_confidence`, reads the
last-10-games mean for context, picks the over or under probability and edge,
and assembles the result. -/
def analyze_leg (sqrtFn cdf ppf : ℚ → ℚ) (records : List GameRecord)
    (player_name stat_type : String) (line : ℚ) (bet_type : String)
    (location : String) (opponent : Option String) : LegOutcome :=
  let season_stats := get_player_stats sqrtFn records player_name none
  if season_stats.isEmpty then .err ("Player " ++ player_name ++ " not found")
  else
    let stat_key := (stat_map.lookup stat_type).getD stat_type
    let mean_key := stat_key ++ "_mean"
    let std_key := stat_key ++ "_std"
    match dictGet season_stats mean_key with
    | none => .err ("Invalid stat type: " ++ stat_type)
    | some mv =>
      let player_stat_avg := mv.toQ
      let player_stat_std : StatVal :=
        (dictGet season_stats std_key).getD (.num (player_stat_avg * 0.3))
      let location_factor := get_location_factor location
      let adjLoc : Option ℚ := if location_factor ≠ 1.0 then some location_factor else none
      let adjDef : Option DefenseAdj := match opponent with
        | some opp =>
          if opp = "" then none
          else
            let opp_def_rating := get_team_defense opp
            some { opponent := opp, rating := opp_def_rating,
                   factor := some (calculate_defense_factor opp_def_rating) }
        | none => none
      let adj : Adjustments := { location := adjLoc, defense := adjDef, pace := none }
      let adjustments : Option Adjustments := if adj.truthy then some adj else none
      let prediction :=
        predict_with_confidence cdf ppf player_stat_avg line (some player_stat_std) adjustments
      let recent_stats := get_player_stats sqrtFn records player_name (some 10)
      let recent_avg :=
        if recent_stats.isEmpty then player_stat_avg
        else ((dictGet recent_stats mean_key).getD (.num player_stat_avg)).toQ
      let hit_probability :=
        if bet_type.toLower = "over" then prediction.prob_over else prediction.prob_under
      let edge :=
        if bet_type.toLower = "over" then prediction.edge_over else prediction.edge_under
      .ok
        { player := player_name
          stat_type := stat_type
          line := line
          bet_type := bet_type.toUpper
          season_avg := roundTo 2 player_stat_avg
          season_std := statvalRound2 player_stat_std
          recent_avg := roundTo 2 recent_avg
          predicted_value := prediction.adjusted_mean
          probability := roundTo 4 hit_probability
          edge := roundTo 4 edge
          confidence_80 := prediction.confidence_80
          recommendation := leg_recommendation hit_probability
          games_analyzed := ((dictGet season_stats "games_analyzed").getD (.num 0)).toQ
          adjustments_applied := adjustments }

/-- Whether a leg outcome is the error dictionary. -/
def LegOutcome.isErr : LegOutcome → Bool
  | .err _ => true
  | .ok _ => false

/-- One element of the `analyzed_legs` list of `analyze_parlay`: failed legs
are retained tagged with their error and 1-based leg number. -/
inductive AnalyzedLeg where
  | failed (leg_number : ℕ) (msg : String)
  | ok (r : LegResult)
deriving DecidableEq, Repr

/-- `ParlayAnalyzer._calculate_parlay_odds`: payout multiplier table for 1 to
10 legs, `2 ^ n` fallback. -/
def calculate_parlay_odds (num_legs : ℕ) : ℚ :=
  ((([(1, 1.91), (2, 2.64), (3, 5.96), (4, 12.28), (5, 24.35), (6, 47.41),
      (7, 91.42), (8, 175.45), (9, 335.85), (10, 642.08)] :
      List (ℕ × ℚ)).lookup num_legs)).getD (2 ^ num_legs)

/-- `ParlayAnalyzer._make_parlay_recommendation`: leg-count-scaled threshold
`0.15 + (num_legs - 2) * 0.02` with bands at 1.5x, 1x and 0.7x of it
(formatted suffixes abstracted to the band tags). -/
def make_parlay_recommendation (combined_prob : ℚ) (num_legs : ℕ) : String :=
  let threshold : ℚ := 0.15 + ((num_legs : ℚ) - 2) * 0.02
  if combined_prob ≥ threshold * 1.5 then "STRONG PLAY"
  else if combined_prob ≥ threshold then "PLAYABLE"
  else if combined_prob ≥ threshold * 0.7 then "MARGINAL"
  else "AVOID"

/-- One leg request of `analyze_parlay`: mandatory player, stat type and
line; `bet_type`, `location` and `opponent` default through `.get`. -/
structure LegReq where
  player : String
  stat_type : String
  line : ℚ
  bet_type : Option String
  location : Option String
  opponent : Option String
deriving DecidableEq, Repr

/-- Result dictionary of `analyze_parlay` (string renderings such as
`combined_percentage` and the `+odds` format are abstracted;
`estimated_odds` keeps the payout multiplier). -/
structure ParlayResult where
  legs : List AnalyzedLeg
  num_legs : ℕ
  valid_legs : ℕ
  combined_probability : ℚ
  estimated_odds : ℚ
  expected_value : ℚ
  recommendation : String
  weakest_leg : Option String
deriving DecidableEq, Repr

/-- Outcome of `analyze_parlay`: the all-legs-failed error dictionary (which
still carries the analyzed legs) or the parlay result. -/
inductive ParlayOutput where
  | err (msg : String) (legs : List AnalyzedLeg)
  | ok (r : ParlayResult)
deriving DecidableEq, Repr

/-- The accumulation loop of `analyze_parlay`: starting from
`combined_prob = 1.0` and `valid_legs = 0`, multiply in the probability of
every leg that has one and count it. -/
def parlayFold (legs : List AnalyzedLeg) : ℚ × ℕ :=
  legs.foldl
    (fun acc l => match l with
      | .ok r => (acc.1 * r.probability, acc.2 + 1)
      | .failed _ _ => acc)
    (1, 0)

/-- The weakest-leg search of `analyze_parlay`: first leg of minimum
probability among the valid ones (`min` with a key returns the earliest
minimum). -/
def weakestLeg (legs : List AnalyzedLeg) : Option LegResult :=
  legs.foldl
    (fun acc l => match l with
      | .ok r => match acc with
        | none => some r
        | some b => if r.probability < b.probability then some r else acc
      | .failed _ _ => acc)
    none

/-- Number of successfully analyzed legs in a list. -/
def countOk (legs : List AnalyzedLeg) : ℕ :=
  legs.countP fun l => match l with
    | .ok _ => true
    | .failed _ _ => false

/-- Probabilities of the successfully analyzed legs, in order. -/
def okProbs (legs : List AnalyzedLeg) : List ℚ :=
  legs.filterMap fun l => match l with
    | .ok r => some r.probability
    | .failed _ _ => none

/-- Product of a list of rationals. -/
def qprod : List ℚ → ℚ
  | [] => 1
  | x :: xs => x * qprod xs

/-- The per-leg analysis loop of `analyze_parlay`: analyze every leg through
the supplied function, tagging failed legs with their 1-based number but
keeping them in the list. -/
def parlayAnalyzedLegs (analyzeFn : LegReq → LegOutcome) (legs : List LegReq) :
    List AnalyzedLeg :=
  legs.enum.map fun p =>
    match analyzeFn p.2 with
    | .err m => .failed (p.1 + 1) m
    | .ok r => .ok r

/-- The body of `ParlayAnalyzer.analyze_parlay`, parameterized by the per-leg
analysis function that the method invokes (`self.analyze_leg`): analyze every
leg, tag failures with their leg number but keep them in the list, combine
the valid legs' probabilities by multiplication, fail only when no leg is
valid, and otherwise assemble odds, expected value, recommendation and the
weakest leg. -/
def analyze_parlay_with (analyzeFn : LegReq → LegOutcome) (legs : List LegReq) :
    ParlayOutput :=
  let analyzed : List AnalyzedLeg := parlayAnalyzedLegs analyzeFn legs
  let acc := parlayFold analyzed
  let combined_prob := acc.1
  let valid_legs := acc.2
  if valid_legs = 0 then .err "No valid legs to analyze" analyzed
  else
    let estimated_odds := calculate_parlay_odds valid_legs
    let expected_value := combined_prob * estimated_odds - 1
    .ok
      { legs := analyzed
        num_legs := legs.length
        valid_legs := valid_legs
        combined_probability := roundTo 4 combined_prob
        estimated_odds := estimated_odds
        expected_value := roundTo 3 expected_value
        recommendation := make_parlay_recommendation combined_prob valid_legs
        weakest_leg := (weakestLeg analyzed).map LegResult.player }

/-- `ParlayAnalyzer.analyze_parlay`: the parlay body applied to the real
`analyze_leg`, with the `.get` defaults of the leg dictionaries. -/
def analyze_parlay (sqrtFn cdf ppf : ℚ → ℚ) (records : List GameRecord)
    (legs : List LegReq) : ParlayOutput :=
  analyze_parlay_with
    (fun leg => analyze_leg sqrtFn cdf ppf records leg.player leg.stat_type leg.line
      (leg.bet_type.getD "over") (leg.location.getD "neutral") leg.opponent)
    legs

/-- Analyzed-legs list of a parlay output (retained in both branches). -/
def ParlayOutput.legsOf : ParlayOutput → List AnalyzedLeg
  | .err _ l => l
  | .ok r => r.legs

/-- Combined probability of a parlay output, absent on the error branch. -/
def ParlayOutput.combinedProb : ParlayOutput → Option ℚ
  | .err _ _ => none
  | .ok r => some r.combined_probability

/-- Valid-leg count of a parlay output, absent on the error branch. -/
def ParlayOutput.validLegs : ParlayOutput → Option ℕ
  | .err _ _ => none
  | .ok r => some r.valid_legs

/-- Whether a parlay output is the all-legs-failed error. -/
def ParlayOutput.isErr : ParlayOutput → Bool
  | .err _ _ => true
  | .ok _ => false

/-! ### src/matchup_analyzer.py -/

/-- The `TEAM_DEFENSIVE_RATINGS` class table of `MatchupAnalyzer`
(2024-25 season values; distinct from the team_stats module table). -/
def MATCHUP_TEAM_DEFENSIVE_RATINGS : List (String × ℚ) :=
  [("OKC", 104.3), ("HOU", 106.1), ("ORL", 106.8), ("LAL", 108.2),
   ("BOS", 108.9), ("MIA", 109.1), ("GSW", 109.5), ("CLE", 109.8),
   ("MEM", 110.2), ("NYK", 110.5), ("DAL", 110.8), ("MIN", 111.0),
   ("DEN", 111.3), ("MIL", 111.5), ("PHI", 111.8), ("SAC", 112.0),
   ("LAC", 112.2), ("PHX", 112.5), ("NOP", 113.0), ("ATL", 113.5),
   ("IND", 114.2), ("TOR", 114.5), ("CHI", 114.8), ("BKN", 115.0),
   ("POR", 115.5), ("DET", 115.8), ("CHA", 116.0), ("SAS", 116.5),
   ("UTA", 117.0), ("WAS", 117.5)]

/-- The `TEAM_PACE` class table of `MatchupAnalyzer`. -/
def MATCHUP_TEAM_PACE : List (String × ℚ) :=
  [("IND", 103.5), ("NOP", 102.8), ("SAC", 102.3), ("ATL", 101.5),
   ("BOS", 101.2), ("GSW", 100.8), ("DAL", 100.5), ("PHX", 100.2),
   ("MEM", 100.0), ("MIN", 99.8), ("DEN", 99.5), ("LAL", 99.3),
   ("MIL", 99.0), ("CLE", 98.8), ("PHI", 98.5), ("CHI", 98.3),
   ("HOU", 98.0), ("OKC", 97.8), ("NYK", 97.5), ("LAC", 97.3),
   ("TOR", 97.0), ("POR", 96.8), ("BKN", 96.5), ("MIA", 96.3),
   ("ORL", 96.0), ("DET", 95.8), ("SAS", 95.5), ("CHA", 95.3),
   ("WAS", 95.0), ("UTA", 94.5)]

/-- `MatchupAnalyzer._get_defensive_adjustment`: multiplier
`1 + ((112 - def_rating) / 112 * 0.6)` clamped to `[0.85, 1.15]` (the
`stat_type` argument is accepted and unused, as in the source). -/
def get_defensive_adjustment (opponent stat_type : String) : ℚ :=
  let def_rating := (MATCHUP_TEAM_DEFENSIVE_RATINGS.lookup opponent).getD 112.0
  let league_avg : ℚ := 112.0
  let adjustment := 1 + ((league_avg - def_rating) / league_avg * 0.6)
  pymax 0.85 (pymin 1.15 adjustment)

/-- `MatchupAnalyzer._get_pace_adjustment`: multiplier
`1 + ((pace - 98.5) / 98.5 * 0.3)` clamped to `[0.95, 1.05]`. -/
def get_pace_adjustment (opponent : String) : ℚ :=
  let pace := (MATCHUP_TEAM_PACE.lookup opponent).getD 98.5
  let league_avg : ℚ := 98.5
  let adjustment := 1 + ((pace - league_avg) / league_avg * 0.3)
  pymax 0.95 (pymin 1.05 adjustment)

/-- One row of the matchup gamelog CSV after numeric coercion: player, the
`Opp` column and the nullable stat columns PTS/AST/TRB/3P/STL/BLK/TOV. -/
structure MatchupLog where
  player_name : String
  opp : String
  pts : Option ℚ
  ast : Option ℚ
  trb : Option ℚ
  three_p : Option ℚ
  stl : Option ℚ
  blk : Option ℚ
  tov : Option ℚ
deriving DecidableEq, Repr

/-- Column access of the matchup gamelog by upper-cased stat key
(`csv_col = stat_key.upper()`); an unknown column name is absent. -/
def matchupStatCol (col : String) : Option (MatchupLog → Option ℚ) :=
  if col = "PTS" then some MatchupLog.pts
  else if col = "AST" then some MatchupLog.ast
  else if col = "TRB" then some MatchupLog.trb
  else if col = "3P" then some MatchupLog.three_p
  else if col = "STL" then some MatchupLog.stl
  else if col = "BLK" then some MatchupLog.blk
  else if col = "TOV" then some MatchupLog.tov
  else none

/-- `MatchupAnalyzer._get_matchup_history`: number of non-null games and the
(2-decimal rounded) average of the stat in games of this player against this
opponent; `(0, 0)` when nothing matches.  Player and opponent are compared
case-sensitively, as in the source. -/
def get_matchup_history (gamelogs : List MatchupLog)
    (player_name opponent stat_key : String) : ℕ × ℚ :=
  if gamelogs.isEmpty then (0, 0)
  else
    let matchup_games := gamelogs.filter fun g =>
      g.player_name == player_name && g.opp == opponent
    if matchup_games.isEmpty then (0, 0)
    else
      match matchupStatCol stat_key.toUpper with
      | none => (0, 0)
      | some col =>
        let values := matchup_games.filterMap col
        (values.length, if values.length > 0 then roundTo 2 (qmean values) else 0)

/-- The adjusted-mean pipeline of `MatchupAnalyzer.analyze_leg_with_matchup`
(source lines 161-206): starting from the season average, when an opponent is
given multiply by the defensive adjustment, then by the pace adjustment, then
blend with the matchup history average under weight
`min(games / 10, 0.4)` when historical games exist; finally multiply by the
home/away adjustment `1.05 / 0.95`. -/
def matchup_adjusted_avg (gamelogs : List MatchupLog)
    (player_name stat_type stat_key : String) (season_avg : ℚ)
    (opponent : Option String) (is_home : Bool) : ℚ :=
  let afterOpp : ℚ :=
    match opponent with
    | none => season_avg
    | some opp =>
      if opp = "" then season_avg
      else
        let a1 := season_avg * get_defensive_adjustment opp stat_type
        let a2 := a1 * get_pace_adjustment opp
        let matchup_data := get_matchup_history gamelogs player_name opp stat_key
        if matchup_data.1 > 0 then
          let weight := pymin ((matchup_data.1 : ℚ) / 10) 0.4
          a2 * (1 - weight) + matchup_data.2 * weight
        else a2
  let home_adjustment : ℚ := if is_home then 1.05 else 0.95
  afterOpp * home_adjustment

/-- Modelled from the spec (for comparison with the code): the same pipeline
with the matchup-history blend applied last, after every multiplicative factor
including the home/away (location) one, as the specification prescribes. -/
def matchup_adjusted_avg_claimOrder (gamelogs : List MatchupLog)
    (player_name stat_type stat_key : String) (season_avg : ℚ)
    (opponent : Option String) (is_home : Bool) : ℚ :=
  let home_adjustment : ℚ := if is_home then 1.05 else 0.95
  match opponent with
  | none => season_avg * home_adjustment
  | some opp =>
    if opp = "" then season_avg * home_adjustment
    else
      let allFactors := season_avg * get_defensive_adjustment opp stat_type
        * get_pace_adjustment opp * home_adjustment
      let matchup_data := get_matchup_history gamelogs player_name opp stat_key
      if matchup_data.1 > 0 then
        let weight := pymin ((matchup_data.1 : ℚ) / 10) 0.4
        allFactors * (1 - weight) + matchup_data.2 * weight
      else allFactors

/-! ### Concrete fixtures used by the closed theorems -/

/-- Identity stand-in for the square-root parameter (the key-structure facts
proved below do not depend on its values). -/
def idQ : ℚ → ℚ := fun q => q

/-- Constant one-half stand-in for the normal CDF. -/
def cdfHalf : ℚ → ℚ := fun _ => 1 / 2

/-- Constant stand-in for the normal inverse CDF. -/
def ppfOne : ℚ → ℚ := fun _ => 1

/-- A monotone CDF stand-in with values in `[0, 1]` that separates `z = 1`
from larger z-scores. -/
def cdfStep : ℚ → ℚ := fun z => if z ≤ 1 then 1 / 2 else 9 / 10

/-- A two-game record store for the player "Test Player". -/
def sampleRecords : List GameRecord :=
  [{ player_name := "Test Player", date := "2024-01-01", opponent := "BOS",
     pts := some 25, ast := some 5, trb := some 8, three_p := some 3,
     stl := some 1, blk := some 1, tov := some 2, mp := some 35 },
   { player_name := "Test Player", date := "2023-12-30", opponent := "LAL",
     pts := some 31, ast := some 7, trb := some 6, three_p := some 4,
     stl := some 2, blk := some 0, tov := some 3, mp := some 36 }]

/-- A one-game matchup log: player "A" scored 30 points against BOS. -/
def sampleMatchupLog : List MatchupLog :=
  [{ player_name := "A", opp := "BOS", pts := some 30, ast := none,
     trb := none, three_p := none, stl := none, blk := none, tov := none }]

/-! ### Helper lemmas -/

/-- The complement identity of the probability clamp: for a CDF value
`p ∈ [0, 1]`, the clamped over and under probabilities sum to one. -/
theorem clamp_prob_add_compl (p : ℚ) (h0 : 0 ≤ p) (h1 : p ≤ 1) :
    clamp_prob (1 - p) + clamp_prob p = 1 := by
  unfold clamp_prob pymax pymin
  split_ifs <;> norm_num at * <;> linarith

/-- The effective standard deviation used inside
`calculate_probability_normal`: the zero-or-`None` substitution followed by
the `0.1` floor. -/
def eff_std (mean : ℚ) (std : Option ℚ) : ℚ :=
  let std1 : ℚ :=
    match std with
    | none => mean * 0.3
    | some s => if s = 0 then mean * 0.3 else s
  if std1 < 0.1 then 0.1 else std1

/-- `calculate_probability_normal` factored through the effective std. -/
theorem calculate_probability_normal_eff (cdf : ℚ → ℚ) (mean : ℚ)
    (std : Option ℚ) (line : ℚ) (over : Bool) :
    calculate_probability_normal cdf mean std line over
      = clamp_prob (if over then 1 - cdf ((line - mean) / eff_std mean std)
          else cdf ((line - mean) / eff_std mean std)) := rfl

/-- Flooring at a constant is a `pymax`. -/
theorem ite_lt_pymax (x c : ℚ) : (if x < c then c else x) = pymax x c := by
  unfold pymax
  split_ifs with h h2 h2
  · exact absurd (lt_of_lt_of_le h h2) (lt_irrefl x)
  · rfl
  · rfl
  · exact absurd (le_of_not_lt h) h2

/-! ### Claim theorems -/

/-- C3: for every mean, std and line, the probability returned for the over
direction and the probability returned for the under direction by
`calculate_probability_normal` sum to exactly 1, for any CDF with values in
`[0, 1]` — in particular the clamp satisfies `clamp(p) + clamp(1 - p) = 1`
even when it is active at either extreme. -/
theorem C3_over_under_sum_to_one (cdf : ℚ → ℚ) (mean : ℚ) (std : Option ℚ)
    (line : ℚ) (hcdf : ∀ z, 0 ≤ cdf z ∧ cdf z ≤ 1) :
    calculate_probability_normal cdf mean std line true
      + calculate_probability_normal cdf mean std line false = 1 := by
  simp only [calculate_probability_normal, if_pos, if_neg, Bool.false_eq_true,
    ite_true, ite_false]
  exact clamp_prob_add_compl _ (hcdf _).1 (hcdf _).2

/-- Witness for C3 at a concrete CDF, mean, std and line. -/
theorem C3_over_under_sum_to_one_witness :
    calculate_probability_normal cdfHalf 10 (some 2) 11 true
      + calculate_probability_normal cdfHalf 10 (some 2) 11 false = 1 :=
  C3_over_under_sum_to_one cdfHalf 10 (some 2) 11
    (fun _ => ⟨by norm_num [cdfHalf], by norm_num [cdfHalf]⟩)

/-- C4: for every CDF, mean, std, line and direction, the probability returned
by `calculate_probability_normal` lies in `[0.01, 0.99]`; moreover the clamp
returns exactly `0.99` on any value at least `0.99` and exactly `0.01` on any
value at most `0.01` — never `1.0` or `0.0`. -/
theorem C4_probability_clamped (cdf : ℚ → ℚ) (mean : ℚ) (std : Option ℚ)
    (line : ℚ) (over : Bool) :
    (0.01 ≤ calculate_probability_normal cdf mean std line over
      ∧ calculate_probability_normal cdf mean std line over ≤ 0.99)
    ∧ (∀ q : ℚ, 0.99 ≤ q → clamp_prob q = 0.99)
    ∧ (∀ q : ℚ, q ≤ 0.01 → clamp_prob q = 0.01) := by
  have hc : ∀ p : ℚ, clamp_prob p = max 0.01 (min 0.99 p) := by
    intro p
    unfold clamp_prob
    rw [pymax_eq, pymin_eq]
  refine ⟨⟨?_, ?_⟩, fun q hq => ?_, fun q hq => ?_⟩
  · unfold calculate_probability_normal
    rw [hc]
    exact le_max_left _ _
  · unfold calculate_probability_normal
    rw [hc]
    exact max_le (by norm_num) (min_le_left _ _)
  · rw [hc, min_eq_left hq, max_eq_right (by norm_num)]
  · rw [hc, min_eq_right (le_trans hq (by norm_num)), max_eq_left hq]

/-- Witness for C4 at a concrete input, exercising both extreme-clamp parts. -/
theorem C4_probability_clamped_witness :
    ((0.01 ≤ calculate_probability_normal cdfHalf 10 (some 2) 11 true
      ∧ calculate_probability_normal cdfHalf 10 (some 2) 11 true ≤ 0.99))
    ∧ clamp_prob 1 = 0.99 ∧ clamp_prob 0 = 0.01 :=
  ⟨(C4_probability_clamped cdfHalf 10 (some 2) 11 true).1,
   (C4_probability_clamped cdfHalf 10 (some 2) 11 true).2.1 1 (by norm_num),
   (C4_probability_clamped cdfHalf 10 (some 2) 11 true).2.2 0 (by norm_num)⟩

/-- C6 (counterexample): a supplied std of `0.05` — nonzero but below the
`0.1` floor — is raised to `0.1`, not replaced by `max(mean × 0.3, 0.1)`:
with mean 10 and line 13 the two give different probabilities for any
monotone CDF stand-in separating `z = 1` from `z = 30`. -/
theorem C6_below_floor_counterexample :
    calculate_probability_normal cdfStep 10 (some 0.05) 13 false
      ≠ calculate_probability_normal cdfStep 10 (some (pymax (10 * 0.3) 0.1)) 13 false := by
  with_unfolding_all decide

/-- C6 (amended): if the supplied std is zero or `None`,
`calculate_probability_normal` behaves as if std were `max(mean × 0.3, 0.1)`;
a nonzero std below the `0.1` floor is raised to exactly `0.1` (not to
`max(mean × 0.3, 0.1)`).  Non-finite floats are outside this rational model;
the source has no finiteness guard. -/
theorem C6_std_guard (cdf : ℚ → ℚ) (mean line : ℚ) (over : Bool) :
    (calculate_probability_normal cdf mean (some 0) line over
        = calculate_probability_normal cdf mean (some (pymax (mean * 0.3) 0.1)) line over)
    ∧ (calculate_probability_normal cdf mean none line over
        = calculate_probability_normal cdf mean (some (pymax (mean * 0.3) 0.1)) line over)
    ∧ (∀ s : ℚ, s ≠ 0 → s < 0.1 →
        calculate_probability_normal cdf mean (some s) line over
          = calculate_probability_normal cdf mean (some 0.1) line over) := by
  have hmaxle : (0.1 : ℚ) ≤ pymax (mean * 0.3) 0.1 := by
    rw [pymax_eq]
    exact le_max_right _ _
  have hmaxne : (pymax (mean * 0.3) 0.1 : ℚ) ≠ 0 :=
    ne_of_gt (lt_of_lt_of_le (by norm_num) hmaxle)
  have hmaxnlt : ¬ ((pymax (mean * 0.3) 0.1 : ℚ) < 0.1) := not_lt.mpr hmaxle
  have hmaxeff : eff_std mean (some (pymax (mean * 0.3) 0.1))
      = pymax (mean * 0.3) 0.1 := by
    show (if (if pymax (mean * 0.3) 0.1 = 0 then mean * 0.3
        else pymax (mean * 0.3) 0.1) < 0.1 then (0.1 : ℚ)
      else if pymax (mean * 0.3) 0.1 = 0 then mean * 0.3
        else pymax (mean * 0.3) 0.1) = pymax (mean * 0.3) 0.1
    rw [if_neg hmaxne, if_neg hmaxnlt]
  have hzeroeff : eff_std mean (some 0) = pymax (mean * 0.3) 0.1 := by
    show (if (if (0 : ℚ) = 0 then mean * 0.3 else 0) < 0.1 then (0.1 : ℚ)
      else if (0 : ℚ) = 0 then mean * 0.3 else 0) = pymax (mean * 0.3) 0.1
    rw [if_pos rfl, ite_lt_pymax]
  have hnoneeff : eff_std mean none = pymax (mean * 0.3) 0.1 := by
    show (if mean * 0.3 < 0.1 then (0.1 : ℚ) else mean * 0.3)
      = pymax (mean * 0.3) 0.1
    rw [ite_lt_pymax]
  refine ⟨?_, ?_, fun s hs0 hslt => ?_⟩
  · rw [calculate_probability_normal_eff, calculate_probability_normal_eff,
      hmaxeff, hzeroeff]
  · rw [calculate_probability_normal_eff, calculate_probability_normal_eff,
      hmaxeff, hnoneeff]
  · have hseff : eff_std mean (some s) = 0.1 := by
      show (if (if s = 0 then mean * 0.3 else s) < 0.1 then (0.1 : ℚ)
        else if s = 0 then mean * 0.3 else s) = 0.1
      rw [if_neg hs0, if_pos hslt]
    have htnth : eff_std mean (some 0.1) = 0.1 := by
      show (if (if (0.1 : ℚ) = 0 then mean * 0.3 else 0.1) < 0.1 then (0.1 : ℚ)
        else if (0.1 : ℚ) = 0 then mean * 0.3 else 0.1) = 0.1
      rw [if_neg (by norm_num : (0.1 : ℚ) ≠ 0), if_neg (lt_irrefl (0.1 : ℚ))]
    rw [calculate_probability_normal_eff, calculate_probability_normal_eff,
      hseff, htnth]

/-- Witness for C6 at concrete CDF, mean, line and below-floor std. -/
theorem C6_std_guard_witness :
    calculate_probability_normal cdfStep 10 (some 0.05) 13 false
      = calculate_probability_normal cdfStep 10 (some 0.1) 13 false :=
  (C6_std_guard cdfStep 10 13 false).2.2 0.05 (by norm_num) (by norm_num)

/-- C7: `calculate_defense_factor` is strictly increasing in the opponent
defensive rating wherever the unclamped value lies within the clamp bounds,
and its result always lies in `[0.85, 1.15]`. -/
theorem C7_defense_factor_monotone :
    (∀ x y : ℚ, 0.85 ≤ defense_factor_raw x → defense_factor_raw x ≤ 1.15 →
      0.85 ≤ defense_factor_raw y → defense_factor_raw y ≤ 1.15 → y < x →
      calculate_defense_factor y < calculate_defense_factor x)
    ∧ (∀ r : ℚ, 0.85 ≤ calculate_defense_factor r
        ∧ calculate_defense_factor r ≤ 1.15) := by
  have hc : ∀ r : ℚ,
      calculate_defense_factor r = max 0.85 (min 1.15 (defense_factor_raw r)) := by
    intro r
    unfold calculate_defense_factor
    rw [pymax_eq, pymin_eq]
  constructor
  · intro x y hx1 hx2 hy1 hy2 hyx
    rw [hc, hc, min_eq_right hx2, max_eq_right hx1, min_eq_right hy2,
      max_eq_right hy1]
    unfold defense_factor_raw at *
    linarith
  · intro r
    rw [hc]
    exact ⟨le_max_left _ _, max_le (by norm_num) (min_le_left _ _)⟩

/-- Witness for C7: rating 115.5 versus 114 (both unclamped values inside the
bounds) and the range at rating 110. -/
theorem C7_defense_factor_monotone_witness :
    calculate_defense_factor 114 < calculate_defense_factor 115.5
    ∧ (0.85 ≤ calculate_defense_factor 110
        ∧ calculate_defense_factor 110 ≤ 1.15) :=
  ⟨C7_defense_factor_monotone.1 115.5 114
      (by norm_num [defense_factor_raw, LEAGUE_AVERAGE_DEF_RATING])
      (by norm_num [defense_factor_raw, LEAGUE_AVERAGE_DEF_RATING])
      (by norm_num [defense_factor_raw, LEAGUE_AVERAGE_DEF_RATING])
      (by norm_num [defense_factor_raw, LEAGUE_AVERAGE_DEF_RATING])
      (by norm_num),
   C7_defense_factor_monotone.2 110⟩

/-- C8 (counterexample): the code classifies a leg probability of exactly
`0.55` as TOSS-UP, not HIT — the comparison `hit_probability > 0.55` is
strict. -/
theorem C8_boundary_counterexample :
    leg_recommendation 0.55 = "TOSS-UP" ∧ leg_recommendation 0.55 ≠ "HIT" := by
  constructor
  · unfold leg_recommendation
    rw [if_neg (lt_irrefl (0.55 : ℚ)), if_neg (by norm_num : ¬ ((0.55 : ℚ) < 0.45))]
  · unfold leg_recommendation
    rw [if_neg (lt_irrefl (0.55 : ℚ)), if_neg (by norm_num : ¬ ((0.55 : ℚ) < 0.45))]
    intro h
    exact absurd (congrArg String.length h) (by decide)

/-- C8 (amended): in the two-band variant used in parlay composition the
recommendation is HIT exactly when `p > 0.55`, MISS exactly when `p < 0.45`,
and TOSS-UP exactly when `0.45 ≤ p ≤ 0.55` — both boundary values classify as
TOSS-UP. -/
theorem C8_recommendation_bands (p : ℚ) :
    (leg_recommendation p = "HIT" ↔ 0.55 < p)
    ∧ (leg_recommendation p = "MISS" ↔ p < 0.45)
    ∧ (leg_recommendation p = "TOSS-UP" ↔ 0.45 ≤ p ∧ p ≤ 0.55) := by
  have hHM : ("HIT" : String) ≠ "MISS" := fun h =>
    absurd (congrArg String.length h) (by decide)
  have hHT : ("HIT" : String) ≠ "TOSS-UP" := fun h =>
    absurd (congrArg String.length h) (by decide)
  have hMT : ("MISS" : String) ≠ "TOSS-UP" := fun h =>
    absurd (congrArg String.length h) (by decide)
  unfold leg_recommendation
  split_ifs with h1 h2
  · refine ⟨⟨fun _ => h1, fun _ => rfl⟩, ⟨fun hh => absurd hh hHM, fun hh => ?_⟩,
      ⟨fun hh => absurd hh hHT, fun hh => ?_⟩⟩
    · exact absurd hh (by linarith)
    · exact absurd h1 (by linarith [hh.2])
  · refine ⟨⟨fun hh => absurd hh (Ne.symm hHM), fun hh => ?_⟩,
      ⟨fun _ => h2, fun _ => rfl⟩,
      ⟨fun hh => absurd hh hMT, fun hh => ?_⟩⟩
    · exact absurd hh (by linarith)
    · exact absurd h2 (by linarith [hh.1])
  · refine ⟨⟨fun hh => absurd hh (Ne.symm hHT), fun hh => absurd hh h1⟩,
      ⟨fun hh => absurd hh (Ne.symm hMT), fun hh => absurd hh h2⟩,
      ⟨fun _ => ⟨le_of_not_lt h2, le_of_not_lt h1⟩, fun _ => rfl⟩⟩

/-- C10: calling `get_player_stats` with `last_n_games = 0` is identical to
calling it with no window at all — Python's `if last_n_games:` treats `0` as
falsy, so the zero window means no truncation (never an empty window or a
not-found signal). -/
theorem C10_zero_window_full_history (sqrtFn : ℚ → ℚ)
    (records : List GameRecord) (player_name : String) :
    get_player_stats sqrtFn records player_name (some 0)
      = get_player_stats sqrtFn records player_name none := by
  unfold get_player_stats
  rfl

/-- C1 (evaluation at the failing input): with a two-game record store for
"Test Player", requesting the documented stat type "points" produces the
invalid-stat error (the `stat_map` sends it to the key `pts_mean`, while the
stats calculator emits `points_mean`), while the unmapped stat type
"turnovers" — which falls through `stat_map` unchanged and accidentally
matches the calculator's key — succeeds. -/
theorem C1_stat_key_mismatch :
    analyze_leg idQ cdfHalf ppfOne sampleRecords "Test Player" "points" (41/2)
        "over" "neutral" none = .err "Invalid stat type: points"
    ∧ (analyze_leg idQ cdfHalf ppfOne sampleRecords "Test Player" "turnovers"
        (5/2) "over" "neutral" none).isErr = false := by
  constructor
  · with_unfolding_all decide
  · with_unfolding_all decide

/-- C5 (counterexample): a player with zero matching records yields the empty
dictionary — which is an empty summary, not a distinct error value. -/
theorem C5_empty_dict_counterexample :
    get_player_stats idQ sampleRecords "Nobody" none = [] := by
  with_unfolding_all decide

/-- C5 (amended): `get_player_stats` returns the empty dictionary exactly when
the player has zero case-insensitively matching records; any player with at
least one matching record gets a nonempty summary (it always carries the
`player_name` and `games_analyzed` keys), so callers can still distinguish
"no data" from "data with zero value", but the not-found signal is the falsy
empty dictionary rather than a distinct error object. -/
theorem C5_not_found_empty_dict (sqrtFn : ℚ → ℚ) (records : List GameRecord)
    (player_name : String) (last_n_games : Option ℕ) :
    (matchingGames records player_name = [] →
      get_player_stats sqrtFn records player_name last_n_games = [])
    ∧ (matchingGames records player_name ≠ [] →
      get_player_stats sqrtFn records player_name last_n_games ≠ []) := by
  constructor
  · intro h
    unfold get_player_stats
    cases records with
    | nil => rfl
    | cons r rs =>
      rw [if_neg (by simp : ¬ (List.isEmpty (r :: rs) = true))]
      rw [h]
      rfl
  · intro h
    have hrec : ¬ (records.isEmpty = true) := by
      cases records with
      | nil => exact absurd rfl h
      | cons r rs => simp
    unfold get_player_stats
    rw [if_neg hrec]
    rw [if_neg (by simpa [List.isEmpty_iff] using h)]
    simp

/-- Witness for C5 at the concrete record store: no match for "Nobody" gives
the empty dictionary, a match for "test player" (case-insensitive) gives a
nonempty one. -/
theorem C5_not_found_empty_dict_witness :
    get_player_stats idQ sampleRecords "Nobodyy" (some 5) = []
    ∧ get_player_stats idQ sampleRecords "test player" (some 5) ≠ [] :=
  ⟨(C5_not_found_empty_dict idQ sampleRecords "Nobodyy" (some 5)).1
      (by with_unfolding_all decide),
   (C5_not_found_empty_dict idQ sampleRecords "test player" (some 5)).2
      (by with_unfolding_all decide)⟩

/-- A fixed successful leg analysis used by the C2 counterexample, with the
end-to-end scenario probability `0.5987`. -/
def constLegResult : LegResult :=
  { player := "A", stat_type := "points", line := 41 / 2, bet_type := "OVER",
    season_avg := 24.5, season_std := .num 8, recent_avg := 24.5,
    predicted_value := 24.5, probability := 0.5987, edge := 0.0987,
    confidence_80 := (14, 35), recommendation := "HIT", games_analyzed := 10,
    adjustments_applied := none }

/-- Leg analyzer that succeeds with `constLegResult` on every request. -/
def constOkAnalyze : LegReq → LegOutcome := fun _ => .ok constLegResult

/-- A two-leg parlay request list. -/
def twoLegReqs : List LegReq :=
  [{ player := "A", stat_type := "points", line := 41 / 2, bet_type := none,
     location := none, opponent := none },
   { player := "A", stat_type := "points", line := 41 / 2, bet_type := none,
     location := none, opponent := none }]

/-- The successful-probability list of a successful head leg. -/
theorem okProbs_cons_ok (r : LegResult) (xs : List AnalyzedLeg) :
    okProbs (.ok r :: xs) = r.probability :: okProbs xs := rfl

/-- The successful-probability list of a failed head leg. -/
theorem okProbs_cons_failed (n : ℕ) (m : String) (xs : List AnalyzedLeg) :
    okProbs (.failed n m :: xs) = okProbs xs := rfl

/-- The successful-leg count of a successful head leg. -/
theorem countOk_cons_ok (r : LegResult) (xs : List AnalyzedLeg) :
    countOk (.ok r :: xs) = countOk xs + 1 := by
  simp [countOk, List.countP_cons]

/-- The successful-leg count of a failed head leg. -/
theorem countOk_cons_failed (n : ℕ) (m : String) (xs : List AnalyzedLeg) :
    countOk (.failed n m :: xs) = countOk xs := by
  simp [countOk, List.countP_cons]

/-- The parlay accumulation loop started from an arbitrary accumulator equals
the product of successful-leg probabilities and the successful-leg count. -/
theorem parlayFold_go (l : List AnalyzedLeg) (a : ℚ) (k : ℕ) :
    l.foldl
      (fun acc x => match x with
        | .ok r => (acc.1 * r.probability, acc.2 + 1)
        | .failed _ _ => acc)
      (a, k)
    = (a * qprod (okProbs l), k + countOk l) := by
  induction l generalizing a k with
  | nil => simp [okProbs, countOk, qprod]
  | cons x xs ih =>
    cases x with
    | ok r =>
      rw [List.foldl_cons]
      show List.foldl _ (a * r.probability, k + 1) xs = _
      rw [ih, okProbs_cons_ok, countOk_cons_ok]
      refine Prod.ext ?_ ?_
      · show (a * r.probability) * qprod (okProbs xs)
          = a * (r.probability * qprod (okProbs xs))
        rw [mul_assoc]
      · show (k + 1) + countOk xs = k + (countOk xs + 1)
        omega
    | failed n m =>
      rw [List.foldl_cons]
      show List.foldl _ (a, k) xs = _
      rw [ih, okProbs_cons_failed, countOk_cons_failed]

/-- The parlay accumulation equals (product of successful probabilities,
number of successful legs). -/
theorem parlayFold_eq (l : List AnalyzedLeg) :
    parlayFold l = (qprod (okProbs l), countOk l) := by
  unfold parlayFold
  rw [parlayFold_go]
  simp

/-- C2 (counterexample): the reported combined probability is the product of
the successful legs' probabilities rounded to four decimal places, not the
exact product — two legs of probability `0.5987` yield a reported `0.3584`
while the exact product is `0.35844169`. -/
theorem C2_rounded_product_counterexample :
    (analyze_parlay_with constOkAnalyze twoLegReqs).combinedProb
      ≠ some (qprod (okProbs
          ((analyze_parlay_with constOkAnalyze twoLegReqs).legsOf))) := by
  with_unfolding_all decide

/-- C2 (amended): for every per-leg analyzer and request list, `analyze_parlay`
retains every leg (failed ones tagged with their error) in the output list,
errors exactly when zero legs succeeded, and otherwise reports the exact
product of the successful legs' probabilities rounded to four decimal places
as the combined probability and the number of successful legs as the
valid-leg count (so a two-leg parlay with one failed leg reports the single
valid leg's — already four-decimal — probability). -/
theorem C2_parlay_composition (f : LegReq → LegOutcome) (legs : List LegReq) :
    ((analyze_parlay_with f legs).isErr = true
      ↔ countOk (parlayAnalyzedLegs f legs) = 0)
    ∧ (analyze_parlay_with f legs).legsOf = parlayAnalyzedLegs f legs
    ∧ (analyze_parlay_with f legs).combinedProb
        = (if countOk (parlayAnalyzedLegs f legs) = 0 then none
           else some (roundTo 4 (qprod (okProbs (parlayAnalyzedLegs f legs)))))
    ∧ (analyze_parlay_with f legs).validLegs
        = (if countOk (parlayAnalyzedLegs f legs) = 0 then none
           else some (countOk (parlayAnalyzedLegs f legs))) := by
  simp only [analyze_parlay_with, parlayFold_eq]
  by_cases h : countOk (parlayAnalyzedLegs f legs) = 0
  · simp [h, ParlayOutput.isErr, ParlayOutput.legsOf, ParlayOutput.combinedProb,
      ParlayOutput.validLegs]
  · simp [h, ParlayOutput.isErr, ParlayOutput.legsOf, ParlayOutput.combinedProb,
      ParlayOutput.validLegs]

/-- C9 (counterexample): with one historical game (30 points versus BOS), a
season average of 20 and a home game, the code's adjusted mean differs from
the one prescribed by the claim (blend applied last, after the home/away
multiplier): the code multiplies the home factor into the already-blended
mean. -/
theorem C9_order_counterexample :
    matchup_adjusted_avg sampleMatchupLog "A" "points" "pts" 20 (some "BOS") true
      ≠ matchup_adjusted_avg_claimOrder sampleMatchupLog "A" "points" "pts" 20
          (some "BOS") true := by
  with_unfolding_all decide

/-- C9 (amended): when an opponent is given and historical games against it
exist, the matchup-history blend with weight `min(games / 10, 0.4)` is applied
after the defense and pace multipliers but before the home/away multiplier,
which multiplies the already-blended mean — so the blend is not the last step
of the pipeline. -/
theorem C9_blend_before_location (gamelogs : List MatchupLog)
    (player_name stat_type stat_key : String) (season_avg : ℚ) (opp : String)
    (is_home : Bool) (hopp : opp ≠ "")
    (hg : 0 < (get_matchup_history gamelogs player_name opp stat_key).1) :
    matchup_adjusted_avg gamelogs player_name stat_type stat_key season_avg
        (some opp) is_home
      = (season_avg * get_defensive_adjustment opp stat_type
            * get_pace_adjustment opp
            * (1 - pymin
                (((get_matchup_history gamelogs player_name opp stat_key).1 : ℚ) / 10)
                0.4)
          + (get_matchup_history gamelogs player_name opp stat_key).2
            * pymin
                (((get_matchup_history gamelogs player_name opp stat_key).1 : ℚ) / 10)
                0.4)
        * (if is_home then 1.05 else 0.95) := by
  simp only [matchup_adjusted_avg]
  rw [if_neg hopp, if_pos hg]

/-- Witness for C9 at the concrete one-game matchup log. -/
theorem C9_blend_before_location_witness :
    matchup_adjusted_avg sampleMatchupLog "A" "points" "pts" 20 (some "BOS") true
      = (20 * get_defensive_adjustment "BOS" "points" * get_pace_adjustment "BOS"
            * (1 - pymin
                (((get_matchup_history sampleMatchupLog "A" "BOS" "pts").1 : ℚ) / 10)
                0.4)
          + (get_matchup_history sampleMatchupLog "A" "BOS" "pts").2
            * pymin
                (((get_matchup_history sampleMatchupLog "A" "BOS" "pts").1 : ℚ) / 10)
                0.4)
        * (if (true : Bool) then 1.05 else 0.95) :=
  C9_blend_before_location sampleMatchupLog "A" "points" "pts" 20 "BOS" true
    (by decide) (by with_unfolding_all decide)

end NBA
